import Mathlib

/-!
Shallow embedding of the Sodav2 sandwich-bot core (bot/src/ray_log_decoder.py,
bot/src/simulation.py, bot/src/monitor.py) and proofs about it.

Bytes are modelled as `List Nat` (each element a byte value), Python strings as
Lean `String`, Python `int` as `Int`/`Nat`, `Decimal` as `ℚ`, `dict` results as
structures with `Option` fields, and a Python function that can raise an
exception that escapes to its caller as `Except String _`.
-/

/-! ## Little-endian words (struct.unpack helpers) -/

/-- Value of a byte list read little-endian (least significant byte first). -/
def leVal : List Nat → Nat
  | [] => 0
  | b :: rest => b + 256 * leVal rest

/-- The i-th field of `struct.unpack("<QQ...Q", bs)`: the little-endian u64 at
byte offset `8*i`. -/
def u64At (bs : List Nat) (i : Nat) : Nat := leVal ((bs.drop (8 * i)).take 8)

/-- The i-th field of `struct.unpack("<LL...L", bs)`: the little-endian u32 at
byte offset `4*i`. -/
def u32At (bs : List Nat) (i : Nat) : Nat := leVal ((bs.drop (4 * i)).take 4)

/-- All little-endian u64 fields of a byte string, in order (used for the
`values[2:]` slice kept as `extra_values`). -/
def u64List : List Nat → List Nat
  | b0 :: b1 :: b2 :: b3 :: b4 :: b5 :: b6 :: b7 :: rest =>
      leVal [b0, b1, b2, b3, b4, b5, b6, b7] :: u64List rest
  | _ => []

/-! ## base64 (model of the stdlib `base64.b64encode` / `base64.b64decode`)

`base64.b64decode` on a `str` (with `validate=False`, the call made at
ray_log_decoder.py line 147) runs the non-strict `binascii.a2b_base64` loop:
characters outside the alphabet are skipped; data characters accumulate in
groups of four, each full group emitting three bytes; a padding character that
completes a group holding two or three data characters (two pads after two
data characters, one pad after three) ends decoding at once, emitting the one
or two bytes of that partial group and ignoring everything after the pad.
`binascii.Error` is raised only when the input ends with an incomplete group:
one leftover data character, or two or three without terminating padding
("Incorrect padding").  The model returns `none` exactly where the call
raises. -/

/-- Value of a base64 alphabet character, `none` for every other character
(including the padding character). -/
def b64CharVal (c : Char) : Option Nat :=
  if 'A' ≤ c ∧ c ≤ 'Z' then some (c.toNat - 65)
  else if 'a' ≤ c ∧ c ≤ 'z' then some (c.toNat - 97 + 26)
  else if '0' ≤ c ∧ c ≤ '9' then some (c.toNat - 48 + 52)
  else if c = '+' then some 62
  else if c = '/' then some 63
  else none

/-- The base64 alphabet character for a 6-bit value. -/
def b64Chr (v : Nat) : Char :=
  if v < 26 then Char.ofNat (65 + v)
  else if v < 52 then Char.ofNat (97 + (v - 26))
  else if v < 62 then Char.ofNat (48 + (v - 52))
  else if v = 62 then '+' else '/'

/-- Characters `base64.b64decode` keeps before decoding: the alphabet and the
padding character. -/
def keepB64 (c : Char) : Bool := (b64CharVal c).isSome || c = '='

/-- The bytes emitted for the partial group a terminating pad closes: one byte
for two accumulated sextets, two bytes for three (the `done:` exit of
`a2b_base64`, reachable only with a group of two or three). -/
def emitPartial : List Nat → List Nat
  | [v0, v1] => [v0 * 4 + v1 / 16]
  | [v0, v1, v2] => [v0 * 4 + v1 / 16, v1 % 16 * 16 + v2 / 4]
  | _ => []

/-- The non-strict `a2b_base64` scanning loop.  `quad` holds the sextets of
the current group (at most three), `pads` the pad characters seen since the
last data character.  A data character resets `pads` and extends the group,
the fourth emitting three bytes; a pad that brings a group of two or three to
four total ends decoding with `emitPartial`; other characters are skipped; at
the end of input a nonempty group means the error case (`none`). -/
def b64Run : List Char → List Nat → Nat → Option (List Nat)
  | [], quad, _ =>
      match quad with
      | [] => some []
      | _ => none
  | c :: rest, quad, pads =>
      if c = '=' then
        if 2 ≤ quad.length ∧ 4 ≤ quad.length + (pads + 1) then some (emitPartial quad)
        else b64Run rest quad (pads + 1)
      else
        match b64CharVal c with
        | some v =>
            match quad with
            | [v0, v1, v2] =>
                match b64Run rest [] 0 with
                | some tail =>
                    some ((v0 * 4 + v1 / 16) :: (v1 % 16 * 16 + v2 / 4) ::
                      (v2 % 4 * 64 + v) :: tail)
                | none => none
            | _ => b64Run rest (quad ++ [v]) 0
        | none => b64Run rest quad pads

/-- Model of `base64.b64decode` on a Python `str`: the non-strict scan over
the characters; `none` where Python raises. -/
def pyB64Decode (s : String) : Option (List Nat) :=
  b64Run s.toList [] 0

/-- Model of `base64.b64encode`: three bytes become four alphabet characters,
a final one- or two-byte group is padded with `=`. -/
def b64EncodeBytes : List Nat → List Char
  | b0 :: b1 :: b2 :: rest =>
      b64Chr (b0 / 4) :: b64Chr (b0 % 4 * 16 + b1 / 16) ::
        b64Chr (b1 % 16 * 4 + b2 / 64) :: b64Chr (b2 % 64) :: b64EncodeBytes rest
  | [b0, b1] => [b64Chr (b0 / 4), b64Chr (b0 % 4 * 16 + b1 / 16), b64Chr (b1 % 16 * 4), '=']
  | [b0] => [b64Chr (b0 / 4), b64Chr (b0 % 4 * 16), '=', '=']
  | [] => []

/-- `base64.b64encode` as a string. -/
def b64encode (bs : List Nat) : String := String.mk (b64EncodeBytes bs)

/-! ## ray_log_decoder.py -/

/-- One decoded ray_log record: the dict returned by `decode_ray_log`, with
`Option` fields for the keys only some layouts produce (ray_log_decoder.py
lines 164-331). -/
structure RayRecord where
  timestamp : Option Nat
  timestamp_in : Option Nat
  timestamp_out : Option Nat
  amount_in : Nat
  amount_out : Nat
  pool_id : Option Nat
  pool_type : Option String
  pool_token : Option Nat
  extra_data : Option Nat
  extra_values : List Nat
deriving DecidableEq

/-- ray_log_decoder.py lines 49-53: pool identification is stubbed and always
answers the SOL/USDC pool. -/
def identify_pool (pool_id : Nat) : Option String := some "SOL/USDC"

/-- Lines 158-162: when the data is nonempty and its first byte is `0x03`,
that version byte is stripped once. -/
def stripVersionTag : List Nat → List Nat
  | [] => []
  | b :: rest => if b = 3 then rest else b :: rest

/-- Result of the dispatch part of `decode_ray_log` running inside the outer
`try`: either a Python `return` value (`ret`, with `ret none` for falling off
the end of the function) or an exception reaching the outer handler (`exn`). -/
inductive BodyResult where
  | ret (r : Option RayRecord)
  | exn
deriving DecidableEq

/-- Lines 274-288: final fallback to u32 values.  `struct.unpack` fails unless
the length is a multiple of 4 (the `struct.error` is caught and the function
falls through, returning `None`); with fewer than three u32 values the dict
literal indexes `values[0]` or `values[2]` out of range, raising `IndexError`
to the outer handler. -/
def u32Fallback (decoded : List Nat) : BodyResult :=
  if decoded.length % 4 = 0 then
    if decoded.length / 4 = 0 then BodyResult.exn
    else if decoded.length / 4 < 3 then BodyResult.exn
    else
      BodyResult.ret (some {
        timestamp := none
        timestamp_in := none
        timestamp_out := none
        amount_in :=
          if decoded.length / 4 > 1 then u32At decoded 0 ||| (u32At decoded 1 <<< 32)
          else u32At decoded 0
        amount_out :=
          if decoded.length / 4 > 3 then u32At decoded 2 ||| (u32At decoded 3 <<< 32)
          else u32At decoded 2
        pool_id := none
        pool_type := some "SOL/USDC"
        pool_token := none
        extra_data := none
        extra_values := [] })
  else BodyResult.ret none

/-- Lines 164-288 of `decode_ray_log`: dispatch on the byte length after
version-tag stripping, then the u64-sequence fallback, then the u32 fallback.
In the fixed-width branches `struct.unpack` is given exactly the right number
of bytes, so the `except struct.error` arms there are dead. -/
def decodeDispatch (decoded : List Nat) : BodyResult :=
  if decoded.length = 56 then
    BodyResult.ret (some {
      timestamp := none
      timestamp_in := some (u64At decoded 0)
      timestamp_out := some (u64At decoded 3)
      amount_in := u64At decoded 1
      amount_out := u64At decoded 4
      pool_id := some (u64At decoded 2)
      pool_type := identify_pool (u64At decoded 2)
      pool_token := some (u64At decoded 5)
      extra_data := some (u64At decoded 6)
      extra_values := [] })
  else if decoded.length = 48 then
    BodyResult.ret (some {
      timestamp := none
      timestamp_in := some (u64At decoded 0)
      timestamp_out := some (u64At decoded 3)
      amount_in := u64At decoded 1
      amount_out := u64At decoded 4
      pool_id := some (u64At decoded 2)
      pool_type := identify_pool (u64At decoded 2)
      pool_token := some (u64At decoded 5)
      extra_data := none
      extra_values := [] })
  else if decoded.length = 32 then
    BodyResult.ret (some {
      timestamp := some (u64At decoded 0)
      timestamp_in := none
      timestamp_out := none
      amount_in := u64At decoded 1
      amount_out := u64At decoded 3
      pool_id := some (u64At decoded 2)
      pool_type := identify_pool (u64At decoded 2)
      pool_token := none
      extra_data := none
      extra_values := [] })
  else if decoded.length = 24 then
    BodyResult.ret (some {
      timestamp := none
      timestamp_in := none
      timestamp_out := none
      amount_in := u64At decoded 0
      amount_out := u64At decoded 1
      pool_id := some (u64At decoded 2)
      pool_type := identify_pool (u64At decoded 2)
      pool_token := none
      extra_data := none
      extra_values := [] })
  else if decoded.length % 8 = 0 ∧ decoded.length / 8 > 0 then
    if decoded.length / 8 = 4 then
      BodyResult.ret (some {
        timestamp := some (u64At decoded 0)
        timestamp_in := none
        timestamp_out := none
        amount_in := u64At decoded 1
        amount_out := u64At decoded 3
        pool_id := some (u64At decoded 2)
        pool_type := some "SOL/USDC"
        pool_token := none
        extra_data := none
        extra_values := [] })
    else if decoded.length / 8 = 2 then
      BodyResult.ret (some {
        timestamp := none
        timestamp_in := none
        timestamp_out := none
        amount_in := u64At decoded 0
        amount_out := u64At decoded 1
        pool_id := none
        pool_type := some "SOL/USDC"
        pool_token := none
        extra_data := none
        extra_values := [] })
    else if decoded.length / 8 ≥ 2 then
      BodyResult.ret (some {
        timestamp := none
        timestamp_in := none
        timestamp_out := none
        amount_in := u64At decoded 0
        amount_out := u64At decoded 1
        pool_id := none
        pool_type := some "SOL/USDC"
        pool_token := none
        extra_data := none
        extra_values := u64List decoded |>.drop 2 })
    else u32Fallback decoded
  else u32Fallback decoded

/-- Lines 292-318, the body of the outer `except Exception` handler (reached
with `decoded` bound): retry the fixed widths with the amounts taken at
`values[1]`/`values[4]` (falling back to `values[0]`/`values[1]`), then a
dynamic u64 retry needing at least two whole words. -/
def handlerRecover (decoded : List Nat) : Option RayRecord :=
  if decoded.length = 7 * 8 then
    some {
      timestamp := none, timestamp_in := none, timestamp_out := none
      amount_in := u64At decoded 1
      amount_out := u64At decoded 4
      pool_id := none, pool_type := some "SOL/USDC", pool_token := none
      extra_data := none, extra_values := [] }
  else if decoded.length = 6 * 8 then
    some {
      timestamp := none, timestamp_in := none, timestamp_out := none
      amount_in := u64At decoded 1
      amount_out := u64At decoded 4
      pool_id := none, pool_type := some "SOL/USDC", pool_token := none
      extra_data := none, extra_values := [] }
  else if decoded.length = 4 * 8 then
    some {
      timestamp := none, timestamp_in := none, timestamp_out := none
      amount_in := u64At decoded 1
      amount_out := u64At decoded 1
      pool_id := none, pool_type := some "SOL/USDC", pool_token := none
      extra_data := none, extra_values := [] }
  else if decoded.length = 3 * 8 then
    some {
      timestamp := none, timestamp_in := none, timestamp_out := none
      amount_in := u64At decoded 1
      amount_out := u64At decoded 1
      pool_id := none, pool_type := some "SOL/USDC", pool_token := none
      extra_data := none, extra_values := [] }
  else if decoded.length % 8 = 0 ∧ decoded.length / 8 ≥ 2 then
    some {
      timestamp := none, timestamp_in := none, timestamp_out := none
      amount_in := u64At decoded 0
      amount_out := u64At decoded 1
      pool_id := none, pool_type := some "SOL/USDC", pool_token := none
      extra_data := none, extra_values := [] }
  else none

/-- The literal tag stripped from the front of the input string
(ray_log_decoder.py lines 143-144). -/
def rayLogMarker : String := "ray_log: "

/-- Continuation of `decode_ray_log` after the `base64.b64decode` call.  When
that call raises (`none` here), the outer handler references the
never-assigned local `decoded` (line 296) and the resulting `NameError` is not
caught by its `except struct.error`, so it propagates to the caller
(`Except.error`).  Otherwise the bytes are version-stripped (lines 158-162)
and dispatched, with the handler recovery as the fallback on an in-`try`
exception. -/
def decodeAfterB64 (x : Option (List Nat)) : Except String (Option RayRecord) :=
  match x with
  | none => Except.error "NameError: name decoded is not defined"
  | some decoded0 =>
      match decodeDispatch (stripVersionTag decoded0) with
      | BodyResult.ret r => Except.ok r
      | BodyResult.exn => Except.ok (handlerRecover (stripVersionTag decoded0))

/-- ray_log_decoder.py lines 124-331, `decode_ray_log`: strip the `ray_log: `
marker when present (lines 143-144), base64-decode, and run the dispatch. -/
def decode_ray_log (ray_log : String) : Except String (Option RayRecord) :=
  decodeAfterB64 (pyB64Decode
    (if rayLogMarker.toList.isPrefixOf ray_log.toList then String.mk (ray_log.toList.drop 9)
     else ray_log))

/-- The `amount_in`/`amount_out` pair a decode call delivers, `none` when no
record is returned (used to state the payload-layout claims). -/
def amountsOfDecode (s : String) : Option (Nat × Nat) :=
  match decode_ray_log s with
  | Except.ok (some r) => some (r.amount_in, r.amount_out)
  | _ => none

/-! ## simulation.py -/

/-- One entry of `POOL_CONFIGS` (ray_log_decoder.py lines 29-46). -/
structure PoolConfig where
  min_amount_threshold : Int
  min_price_impact : ℚ
  max_slippage : ℚ
  fee_rate : ℚ
  token_a_decimals : Nat
  token_b_decimals : Nat
deriving DecidableEq

/-- The SOL/USDC entry of `POOL_CONFIGS`. -/
def solUsdcConfig : PoolConfig :=
  { min_amount_threshold := 1000000000
    min_price_impact := 1 / 100
    max_slippage := 2 / 100
    fee_rate := 3 / 1000
    token_a_decimals := 9
    token_b_decimals := 6 }

/-- The SOL/USDT entry of `POOL_CONFIGS`. -/
def solUsdtConfig : PoolConfig :=
  { min_amount_threshold := 1000000000
    min_price_impact := 1 / 100
    max_slippage := 2 / 100
    fee_rate := 3 / 1000
    token_a_decimals := 9
    token_b_decimals := 6 }

/-- `POOL_CONFIGS` as a lookup (dict `.get`): ray_log_decoder.py lines 29-46. -/
def POOL_CONFIGS (pool_type : String) : Option PoolConfig :=
  if pool_type = "SOL/USDC" then some solUsdcConfig
  else if pool_type = "SOL/USDT" then some solUsdtConfig
  else none

/-- transaction.py lines 27-34: pool account details (all fields are account
addresses; the live `simulate_sandwich` never reads them). -/
structure PoolDetails where
  amm_id : String
  token_program : String
  token_a_account : String
  token_b_account : String
  pool_token_mint : String
  fee_account : String
deriving DecidableEq

/-- simulation.py lines 14-22. -/
structure SimulationResult where
  profit : Int
  gas_cost : Int
  pool_fees : Int
  net_profit : Int
  success : Bool
deriving DecidableEq

/-- The keys of `decoded_log` that `simulate_sandwich` reads (lines 203-206);
a missing key makes `.get` return `None`. -/
structure DecodedLog where
  amount_in : Option Int
  amount_out : Option Int
  pool_type : Option String
deriving DecidableEq

/-- Python truthiness of an optional integer: `None` and `0` are falsy. -/
def pyTruthyInt : Option Int → Bool
  | none => false
  | some v => v != 0

/-- simulation.py lines 30-59, `calculate_price_impact`: after validating the
inputs the function unconditionally returns `Decimal("5.0")` (line 59, marked
"For testing purposes"); everything after that line is unreachable.
`Except.error` models the `ValueError` raised on non-positive inputs. -/
def calculate_price_impact (reserve_a reserve_b amount_in amount_out : Int)
    (pool_type : String) : Except String ℚ :=
  if amount_in ≤ 0 then Except.error "Amount in must be positive"
  else if reserve_a ≤ 0 ∨ reserve_b ≤ 0 then Except.error "Pool reserves must be positive"
  else Except.ok 5

/-- simulation.py lines 164-183, `estimate_gas_cost`: base cost 5000 lamports,
doubled when `market_conditions == "congested"`, tripled when `"high"`,
otherwise returned as is.  No other adjustment is applied. -/
def estimate_gas_cost (pool_type : Option String) (market_conditions : String) : Int :=
  if market_conditions = "congested" then 5000 * 2
  else if market_conditions = "high" then 5000 * 3
  else 5000

/-- `estimate_gas_cost` called without `market_conditions`, which Python
defaults to `"normal"` (line 164). -/
def estimate_gas_cost_defaulted (pool_type : Option String) : Int :=
  estimate_gas_cost pool_type "normal"

/-- simulation.py lines 186-234, `simulate_sandwich` (the live code: the
function returns at line 228, everything from line 235 on is unreachable).
Validation: both amounts present and truthy, both positive, pool type in
`POOL_CONFIGS` (defaulting to "SOL/USDC" when absent), and `amount_in` at
least the pool minimum; then a fixed result marked "For testing purposes". -/
def simulate_sandwich (decoded_log : DecodedLog) (pool_details : PoolDetails)
    (min_profit_threshold : Int) (dry_run : Bool) : Option SimulationResult :=
  if !pyTruthyInt decoded_log.amount_in || !pyTruthyInt decoded_log.amount_out then none
  else if decoded_log.amount_in.getD 0 ≤ 0 ∨ decoded_log.amount_out.getD 0 ≤ 0 then none
  else if (POOL_CONFIGS (decoded_log.pool_type.getD "SOL/USDC")).isNone then none
  else
    match POOL_CONFIGS (decoded_log.pool_type.getD "SOL/USDC") with
    | none => none
    | some pool_config =>
        if decoded_log.amount_in.getD 0 < pool_config.min_amount_threshold then none
        else
          some { profit := 20000000
                 gas_cost := 5000
                 pool_fees := 3000000
                 net_profit := 16995000
                 success := true }

/-! ## monitor.py (reserve-cache freshness fragment) -/

/-- One entry of `TransactionMonitor.pool_reserves_cache`, as written by
`update_pool_reserves` (monitor.py lines 112-116).  Timestamps are seconds. -/
structure ReserveEntry where
  token_a : Nat
  token_b : Nat
  last_update : Nat
deriving DecidableEq

/-- monitor.py lines 303-315 inside `process_log`: look the pool type up in the
reserve cache and read `token_a`/`token_b` only when the entry is younger than
300 seconds.  The fragment only reads the cache, so the (unchanged) cache is
returned alongside the reserves it used. -/
def reservesFromCache (cache : String → Option ReserveEntry) (pool_type : String)
    (now : Nat) : Option (Nat × Nat) × (String → Option ReserveEntry) :=
  match cache pool_type with
  | some entry =>
      (if now - entry.last_update < 300 then some (entry.token_a, entry.token_b) else none,
        cache)
  | none => (none, cache)

/-! ## Concrete inputs used by counterexamples and witnesses -/

/-- The eight little-endian bytes of a u64 value (a `struct.pack("<Q", v)`
helper for building fixture payloads). -/
def le64Chunk (v : Nat) : List Nat :=
  [v % 256, v / 256 % 256, v / 65536 % 256, v / 16777216 % 256,
   v / 4294967296 % 256, v / 1099511627776 % 256,
   v / 281474976710656 % 256, v / 72057594037927936 % 256]

/-- A 32-byte payload packing the little-endian u64 tuple
`(1000, 1001, 1002, 1003)`. -/
def c1Payload : List Nat :=
  le64Chunk 1000 ++ le64Chunk 1001 ++ le64Chunk 1002 ++ le64Chunk 1003

/-- A 32-byte payload whose first byte is the 0x03 version tag. -/
def c7Payload : List Nat := 3 :: List.replicate 31 0

/-- A 32-byte payload whose first byte is not the version tag. -/
def c7GoodPayload : List Nat := List.replicate 32 0

/-- A 24-byte all-zero payload (used to witness the pool-type claim). -/
def c10Payload : List Nat := List.replicate 24 0

/-- The record `decode_ray_log` produces for `c10Payload` (24-byte layout). -/
def c10Record : RayRecord :=
  { timestamp := none
    timestamp_in := none
    timestamp_out := none
    amount_in := 0
    amount_out := 0
    pool_id := some 0
    pool_type := some "SOL/USDC"
    pool_token := none
    extra_data := none
    extra_values := [] }

/-- Placeholder pool account details (the live `simulate_sandwich` ignores
this argument). -/
def samplePoolDetails : PoolDetails :=
  { amm_id := "675kPX9MHTjS2zt1qfr1NYHuzeLXfQM9H24wFSUt1Mp8"
    token_program := "TokenkegQfeZyiNwAJbNbGKPFXCWuBvf9Ss623VQ5DA"
    token_a_account := "9wFFyRfZBsuAha4YcuxcXLKwMxJR43S7fPfQLusDBzvT"
    token_b_account := "EPjFWdd5AufqSSqeM2qN1xzybapC8G4wEGGkZwyTDt1v"
    pool_token_mint := "8HoQnePLqPj4M7PUDzfw8e3Ymdwgc7NLGnaTUapubyvu"
    fee_account := "4Zc4kQZhRQeGztihvcGSWezJE1k44kKEgPCAkdeBfras" }

/-- A decoded log passing every `simulate_sandwich` validation step. -/
def sampleLog : DecodedLog :=
  { amount_in := some 2000000000
    amount_out := some 1900000000
    pool_type := some "SOL/USDC" }

/-- A second valid decoded log differing from `sampleLog` in every field. -/
def sampleLog2 : DecodedLog :=
  { amount_in := some 5000000000
    amount_out := some 95000000
    pool_type := some "SOL/USDT" }

/-- A reserve cache holding one SOL/USDC entry written at time 100. -/
def sampleCache : String → Option ReserveEntry := fun pool_type =>
  if pool_type = "SOL/USDC" then some { token_a := 1000000000000, token_b := 20000000000, last_update := 100 }
  else none

/-! ## Lemmas about the base64 model -/

/-- Decoding the alphabet character of a 6-bit value recovers the value. -/
theorem b64CharVal_b64Chr : ∀ v, v < 64 → b64CharVal (b64Chr v) = some v := by decide

/-- Alphabet characters are not the padding character. -/
theorem b64Chr_ne_pad (v : Nat) (h : v < 64) : b64Chr v ≠ '=' := by
  intro he
  have hv := b64CharVal_b64Chr v h
  rw [he] at hv
  rw [show b64CharVal ('=') = none from by decide] at hv
  exact Option.noConfusion hv

/-- Every character the encoder emits survives the decoder filter. -/
theorem keepB64_of_mem_encode :
    ∀ (bs : List Nat), (∀ b ∈ bs, b < 256) →
      ∀ c ∈ b64EncodeBytes bs, keepB64 c = true := by
  intro bs
  induction bs using b64EncodeBytes.induct with
  | case1 b0 b1 b2 rest ih =>
      intro Hb c hc
      have h0 : b0 < 256 := Hb b0 (by simp)
      have h1 : b1 < 256 := Hb b1 (by simp)
      have h2 : b2 < 256 := Hb b2 (by simp)
      rw [b64EncodeBytes] at hc
      simp only [List.mem_cons] at hc
      rcases hc with rfl | rfl | rfl | rfl | hc
      · simp [keepB64, b64CharVal_b64Chr _ (by omega : b0 / 4 < 64)]
      · simp [keepB64, b64CharVal_b64Chr _ (by omega : b0 % 4 * 16 + b1 / 16 < 64)]
      · simp [keepB64, b64CharVal_b64Chr _ (by omega : b1 % 16 * 4 + b2 / 64 < 64)]
      · simp [keepB64, b64CharVal_b64Chr _ (by omega : b2 % 64 < 64)]
      · exact ih (fun b hb => Hb b (by simp [hb])) c hc
  | case2 b0 b1 =>
      intro Hb c hc
      have h0 : b0 < 256 := Hb b0 (by simp)
      have h1 : b1 < 256 := Hb b1 (by simp)
      rw [b64EncodeBytes] at hc
      simp only [List.mem_cons, List.not_mem_nil, or_false] at hc
      rcases hc with rfl | rfl | rfl | rfl
      · simp [keepB64, b64CharVal_b64Chr _ (by omega : b0 / 4 < 64)]
      · simp [keepB64, b64CharVal_b64Chr _ (by omega : b0 % 4 * 16 + b1 / 16 < 64)]
      · simp [keepB64, b64CharVal_b64Chr _ (by omega : b1 % 16 * 4 < 64)]
      · simp [keepB64]
  | case3 b0 =>
      intro Hb c hc
      have h0 : b0 < 256 := Hb b0 (by simp)
      rw [b64EncodeBytes] at hc
      simp only [List.mem_cons, List.not_mem_nil, or_false] at hc
      rcases hc with rfl | rfl | rfl | rfl
      · simp [keepB64, b64CharVal_b64Chr _ (by omega : b0 / 4 < 64)]
      · simp [keepB64, b64CharVal_b64Chr _ (by omega : b0 % 4 * 16 < 64)]
      · simp [keepB64]
      · simp [keepB64]
  | case4 =>
      intro Hb c hc
      rw [b64EncodeBytes] at hc
      exact absurd hc (List.not_mem_nil c)

/-- Four data characters arriving at an empty group decode to three bytes and
the scan continues with the rest of the input. -/
theorem b64Run_quad_step (c0 c1 c2 c3 : Char) (v0 v1 v2 v3 : Nat) (rest : List Char)
    (hn0 : c0 ≠ '=') (hn1 : c1 ≠ '=') (hn2 : c2 ≠ '=') (hn3 : c3 ≠ '=')
    (h0 : b64CharVal c0 = some v0) (h1 : b64CharVal c1 = some v1)
    (h2 : b64CharVal c2 = some v2) (h3 : b64CharVal c3 = some v3) :
    b64Run (c0 :: c1 :: c2 :: c3 :: rest) [] 0 =
      match b64Run rest [] 0 with
      | some tail =>
          some ((v0 * 4 + v1 / 16) :: (v1 % 16 * 16 + v2 / 4) :: (v2 % 4 * 64 + v3) :: tail)
      | none => none := by
  cases hR : b64Run rest [] 0 with
  | none => simp [b64Run, hn0, hn1, hn2, hn3, h0, h1, h2, h3, hR]
  | some tail => simp [b64Run, hn0, hn1, hn2, hn3, h0, h1, h2, h3, hR]

/-- Two data characters and two pads: the second pad completes the group and
ends the scan with one byte. -/
theorem b64Run_two_pad (c0 c1 : Char) (v0 v1 : Nat)
    (hn0 : c0 ≠ '=') (hn1 : c1 ≠ '=')
    (h0 : b64CharVal c0 = some v0) (h1 : b64CharVal c1 = some v1) :
    b64Run [c0, c1, '=', '='] [] 0 = some [v0 * 4 + v1 / 16] := by
  simp [b64Run, hn0, hn1, h0, h1, emitPartial]

/-- Three data characters and one pad: the pad completes the group and ends
the scan with two bytes. -/
theorem b64Run_one_pad (c0 c1 c2 : Char) (v0 v1 v2 : Nat)
    (hn0 : c0 ≠ '=') (hn1 : c1 ≠ '=') (hn2 : c2 ≠ '=')
    (h0 : b64CharVal c0 = some v0) (h1 : b64CharVal c1 = some v1)
    (h2 : b64CharVal c2 = some v2) :
    b64Run [c0, c1, c2, '='] [] 0 = some [v0 * 4 + v1 / 16, v1 % 16 * 16 + v2 / 4] := by
  simp [b64Run, hn0, hn1, hn2, h0, h1, h2, emitPartial]

/-- Round trip: scanning the encoder output recovers the bytes. -/
theorem b64Run_b64EncodeBytes :
    ∀ (bs : List Nat), (∀ b ∈ bs, b < 256) →
      b64Run (b64EncodeBytes bs) [] 0 = some bs := by
  intro bs
  induction bs using b64EncodeBytes.induct with
  | case1 b0 b1 b2 rest ih =>
      intro Hb
      have h0 : b0 < 256 := Hb b0 (by simp)
      have h1 : b1 < 256 := Hb b1 (by simp)
      have h2 : b2 < 256 := Hb b2 (by simp)
      have hr : ∀ b ∈ rest, b < 256 := fun b hb => Hb b (by simp [hb])
      have hv0 := b64CharVal_b64Chr (b0 / 4) (by omega)
      have hv1 := b64CharVal_b64Chr (b0 % 4 * 16 + b1 / 16) (by omega)
      have hv2 := b64CharVal_b64Chr (b1 % 16 * 4 + b2 / 64) (by omega)
      have hv3 := b64CharVal_b64Chr (b2 % 64) (by omega)
      have hn0 := b64Chr_ne_pad (b0 / 4) (by omega)
      have hn1 := b64Chr_ne_pad (b0 % 4 * 16 + b1 / 16) (by omega)
      have hn2 := b64Chr_ne_pad (b1 % 16 * 4 + b2 / 64) (by omega)
      have hn3 := b64Chr_ne_pad (b2 % 64) (by omega)
      rw [b64EncodeBytes]
      rw [b64Run_quad_step _ _ _ _ _ _ _ _ _ hn0 hn1 hn2 hn3 hv0 hv1 hv2 hv3]
      rw [ih hr]
      simp only [Option.some.injEq, List.cons.injEq]
      refine ⟨by omega, by omega, by omega, trivial⟩
  | case2 b0 b1 =>
      intro Hb
      have h0 : b0 < 256 := Hb b0 (by simp)
      have h1 : b1 < 256 := Hb b1 (by simp)
      have hv0 := b64CharVal_b64Chr (b0 / 4) (by omega)
      have hv1 := b64CharVal_b64Chr (b0 % 4 * 16 + b1 / 16) (by omega)
      have hv2 := b64CharVal_b64Chr (b1 % 16 * 4) (by omega)
      have hn0 := b64Chr_ne_pad (b0 / 4) (by omega)
      have hn1 := b64Chr_ne_pad (b0 % 4 * 16 + b1 / 16) (by omega)
      have hn2 := b64Chr_ne_pad (b1 % 16 * 4) (by omega)
      rw [b64EncodeBytes]
      rw [b64Run_one_pad _ _ _ _ _ _ hn0 hn1 hn2 hv0 hv1 hv2]
      simp only [Option.some.injEq, List.cons.injEq, and_true]
      exact ⟨by omega, by omega⟩
  | case3 b0 =>
      intro Hb
      have h0 : b0 < 256 := Hb b0 (by simp)
      have hv0 := b64CharVal_b64Chr (b0 / 4) (by omega)
      have hv1 := b64CharVal_b64Chr (b0 % 4 * 16) (by omega)
      have hn0 := b64Chr_ne_pad (b0 / 4) (by omega)
      have hn1 := b64Chr_ne_pad (b0 % 4 * 16) (by omega)
      rw [b64EncodeBytes]
      rw [b64Run_two_pad _ _ _ _ hn0 hn1 hv0 hv1]
      simp only [Option.some.injEq, List.cons.injEq, and_true]
      omega
  | case4 =>
      intro Hb
      rw [b64EncodeBytes]
      rfl

/-- The encoder output never carries the `ray_log: ` marker (the marker
contains a colon, which the alphabet does not). -/
theorem rayLogMarker_not_prefix_of_encode (bs : List Nat) (Hb : ∀ b ∈ bs, b < 256) :
    rayLogMarker.toList.isPrefixOf (b64encode bs).toList = false := by
  cases hP : rayLogMarker.toList.isPrefixOf (b64encode bs).toList with
  | false => rfl
  | true =>
      have hp : rayLogMarker.toList <+: (b64encode bs).toList :=
        List.isPrefixOf_iff_prefix.mp hP
      have hmem : ':' ∈ (b64encode bs).toList :=
        List.IsPrefix.mem (by decide : ':' ∈ rayLogMarker.toList) hp
      have hkeep : keepB64 ':' = true :=
        keepB64_of_mem_encode bs Hb ':' hmem
      exact absurd hkeep (by decide)

/-- `base64.b64decode` inverts `base64.b64encode`. -/
theorem pyB64Decode_b64encode (bs : List Nat) (Hb : ∀ b ∈ bs, b < 256) :
    pyB64Decode (b64encode bs) = some bs := by
  unfold pyB64Decode
  have he : (b64encode bs).toList = b64EncodeBytes bs := rfl
  rw [he, b64Run_b64EncodeBytes bs Hb]

/-- A payload that does not begin with the version byte is left unchanged. -/
theorem stripVersionTag_eq_self (bs : List Nat) (h : bs.head? ≠ some 3) :
    stripVersionTag bs = bs := by
  match bs with
  | [] => rfl
  | b :: rest =>
      have hb : b ≠ 3 := fun heq => h (by simp [heq])
      simp [stripVersionTag, hb]

/-- Decoding an encoded payload runs the in-`try` dispatch on the payload after
version-tag stripping, with the exception handler as fallback. -/
theorem decode_ray_log_b64encode (bs : List Nat) (Hb : ∀ b ∈ bs, b < 256) :
    decode_ray_log (b64encode bs) =
      match decodeDispatch (stripVersionTag bs) with
      | BodyResult.ret r => Except.ok r
      | BodyResult.exn => Except.ok (handlerRecover (stripVersionTag bs)) := by
  unfold decode_ray_log
  rw [rayLogMarker_not_prefix_of_encode bs Hb]
  simp only [Bool.false_eq_true, if_false]
  rw [pyB64Decode_b64encode bs Hb]
  rfl

instance : DecidableEq (Except String (Option RayRecord)) := fun a b =>
  match a, b with
  | Except.ok x, Except.ok y => decidable_of_iff (x = y) (by simp)
  | Except.error x, Except.error y => decidable_of_iff (x = y) (by simp)
  | Except.ok _, Except.error _ => isFalse (by simp)
  | Except.error _, Except.ok _ => isFalse (by simp)

/-! ## Lemmas about the decoder dispatch -/

/-- Every record the u32 fallback returns carries the SOL/USDC pool type. -/
theorem u32Fallback_pool_type (bs : List Nat) (r : RayRecord)
    (h : u32Fallback bs = BodyResult.ret (some r)) : r.pool_type = some "SOL/USDC" := by
  unfold u32Fallback at h
  repeat' split at h
  all_goals first | (cases h; rfl) | simp at h

/-- Every record the in-`try` dispatch returns carries the SOL/USDC pool type. -/
theorem decodeDispatch_pool_type (bs : List Nat) (r : RayRecord)
    (h : decodeDispatch bs = BodyResult.ret (some r)) : r.pool_type = some "SOL/USDC" := by
  unfold decodeDispatch at h
  repeat' split at h
  all_goals first | (cases h; rfl) | simp at h | (exact u32Fallback_pool_type bs r h)

/-- Every record the exception handler recovers carries the SOL/USDC pool type. -/
theorem handlerRecover_pool_type (bs : List Nat) (r : RayRecord)
    (h : handlerRecover bs = some r) : r.pool_type = some "SOL/USDC" := by
  unfold handlerRecover at h
  repeat' split at h
  all_goals first | (cases h; rfl) | simp at h

/-- Dispatch on a 56-byte payload: the seven-u64 layout. -/
theorem decodeDispatch_len56 (bs : List Nat) (h : bs.length = 56) :
    decodeDispatch bs = BodyResult.ret (some {
      timestamp := none
      timestamp_in := some (u64At bs 0)
      timestamp_out := some (u64At bs 3)
      amount_in := u64At bs 1
      amount_out := u64At bs 4
      pool_id := some (u64At bs 2)
      pool_type := identify_pool (u64At bs 2)
      pool_token := some (u64At bs 5)
      extra_data := some (u64At bs 6)
      extra_values := [] }) := by
  unfold decodeDispatch
  rw [h]
  rfl

/-- Dispatch on a 48-byte payload: the six-u64 layout. -/
theorem decodeDispatch_len48 (bs : List Nat) (h : bs.length = 48) :
    decodeDispatch bs = BodyResult.ret (some {
      timestamp := none
      timestamp_in := some (u64At bs 0)
      timestamp_out := some (u64At bs 3)
      amount_in := u64At bs 1
      amount_out := u64At bs 4
      pool_id := some (u64At bs 2)
      pool_type := identify_pool (u64At bs 2)
      pool_token := some (u64At bs 5)
      extra_data := none
      extra_values := [] }) := by
  unfold decodeDispatch
  rw [h]
  rfl

/-- Dispatch on a 32-byte payload: the four-u64 layout, with `pool_id` at
element 2 and `amount_out` at element 3. -/
theorem decodeDispatch_len32 (bs : List Nat) (h : bs.length = 32) :
    decodeDispatch bs = BodyResult.ret (some {
      timestamp := some (u64At bs 0)
      timestamp_in := none
      timestamp_out := none
      amount_in := u64At bs 1
      amount_out := u64At bs 3
      pool_id := some (u64At bs 2)
      pool_type := identify_pool (u64At bs 2)
      pool_token := none
      extra_data := none
      extra_values := [] }) := by
  unfold decodeDispatch
  rw [h]
  rfl

/-- Dispatch on a 24-byte payload: the three-u64 layout. -/
theorem decodeDispatch_len24 (bs : List Nat) (h : bs.length = 24) :
    decodeDispatch bs = BodyResult.ret (some {
      timestamp := none
      timestamp_in := none
      timestamp_out := none
      amount_in := u64At bs 0
      amount_out := u64At bs 1
      pool_id := some (u64At bs 2)
      pool_type := identify_pool (u64At bs 2)
      pool_token := none
      extra_data := none
      extra_values := [] }) := by
  unfold decodeDispatch
  rw [h]
  rfl

/-! ## Lemmas about the simulator -/

/-- A decoded log passing every validation step gets the fixed stub result
(simulation.py lines 203-234). -/
theorem simulate_sandwich_valid (l : DecodedLog) (pd : PoolDetails) (t : Int) (d : Bool)
    (a b : Int) (cfg : PoolConfig)
    (ha : l.amount_in = some a) (hb : l.amount_out = some b)
    (hap : 0 < a) (hbp : 0 < b)
    (hc : POOL_CONFIGS (l.pool_type.getD "SOL/USDC") = some cfg)
    (hm : cfg.min_amount_threshold ≤ a) :
    simulate_sandwich l pd t d =
      some { profit := 20000000, gas_cost := 5000, pool_fees := 3000000,
             net_profit := 16995000, success := true } := by
  unfold simulate_sandwich
  rw [ha, hb, hc]
  have h1 : pyTruthyInt (some a) = true := by simp [pyTruthyInt]; omega
  have h2 : pyTruthyInt (some b) = true := by simp [pyTruthyInt]; omega
  rw [h1, h2]
  simp only [Bool.not_true, Bool.or_self, Bool.false_eq_true, if_false,
    Option.getD_some, Option.isNone_some]
  rw [if_neg (by omega), if_neg (by omega)]

/-- A decoded log whose `amount_in` is below the pool minimum is rejected on
every path of `simulate_sandwich` (simulation.py lines 203-225). -/
theorem simulate_sandwich_below_min (l : DecodedLog) (pd : PoolDetails) (t : Int) (d : Bool)
    (a : Int) (cfg : PoolConfig)
    (hc : POOL_CONFIGS (l.pool_type.getD "SOL/USDC") = some cfg)
    (ha : l.amount_in = some a) (hlt : a < cfg.min_amount_threshold) :
    simulate_sandwich l pd t d = none := by
  unfold simulate_sandwich
  rw [ha, hc]
  split
  · rfl
  · rw [Option.getD_some]
    split
    · rfl
    · simp only [Option.isNone_some, Bool.false_eq_true, if_false]
      rw [if_pos hlt]

/-- Every record the decoder returns after the base64 stage carries the
SOL/USDC pool type. -/
theorem decodeAfterB64_pool_type (x : Option (List Nat)) (r : RayRecord)
    (h : decodeAfterB64 x = Except.ok (some r)) : r.pool_type = some "SOL/USDC" := by
  unfold decodeAfterB64 at h
  split at h
  · exact absurd h (by simp)
  · rename_i d
    split at h
    · rename_i rr heq
      injection h with h2
      subst h2
      exact decodeDispatch_pool_type _ r heq
    · rename_i heq
      injection h with h2
      exact handlerRecover_pool_type _ r h2

/-! ## Claim theorems -/

/-- C1, counterexample: on the 32-byte payload packing the u64 tuple
`(0, 1, 2, 3)`, `decode_ray_log` reports `amount_out = 3`, the value at
element 3, not the value `2` at element 2 that the claimed spec order
`[timestamp_in, amount_in, amount_out, pool_id]` assigns. -/
theorem c1_counterexample :
    amountsOfDecode (b64encode c1Payload) = some (u64At c1Payload 1, u64At c1Payload 3) ∧
    u64At c1Payload 2 = 1002 ∧ u64At c1Payload 3 = 1003 ∧
    amountsOfDecode (b64encode c1Payload) ≠ some (u64At c1Payload 1, u64At c1Payload 2) := by
  decide

/-- C1 (amended): for every byte payload of post-strip length 56, 48, 32 or 24
(equivalently, its 0x03-tagged form), `decode_ray_log` returns a record whose
`amount_in`/`amount_out` are the little-endian u64 values at elements 1 and 4
(56 and 48 bytes), elements 1 and 3 (32 bytes, code order
`[timestamp, amount_in, pool_id, amount_out]`), and elements 0 and 1
(24 bytes). -/
theorem c1_amended_layout (bs : List Nat) (Hb : ∀ b ∈ bs, b < 256)
    (hhd : bs.head? ≠ some 3) :
    (bs.length = 56 →
      amountsOfDecode (b64encode bs) = some (u64At bs 1, u64At bs 4) ∧
      amountsOfDecode (b64encode (3 :: bs)) = some (u64At bs 1, u64At bs 4)) ∧
    (bs.length = 48 →
      amountsOfDecode (b64encode bs) = some (u64At bs 1, u64At bs 4) ∧
      amountsOfDecode (b64encode (3 :: bs)) = some (u64At bs 1, u64At bs 4)) ∧
    (bs.length = 32 →
      amountsOfDecode (b64encode bs) = some (u64At bs 1, u64At bs 3) ∧
      amountsOfDecode (b64encode (3 :: bs)) = some (u64At bs 1, u64At bs 3)) ∧
    (bs.length = 24 →
      amountsOfDecode (b64encode bs) = some (u64At bs 0, u64At bs 1) ∧
      amountsOfDecode (b64encode (3 :: bs)) = some (u64At bs 0, u64At bs 1)) := by
  have Hb3 : ∀ b ∈ (3 :: bs), b < 256 := by
    intro b hb
    rcases List.mem_cons.mp hb with rfl | hmem
    · omega
    · exact Hb b hmem
  have hd := decode_ray_log_b64encode bs Hb
  have hd3 := decode_ray_log_b64encode (3 :: bs) Hb3
  rw [stripVersionTag_eq_self bs hhd] at hd
  rw [show stripVersionTag (3 :: bs) = bs from by simp [stripVersionTag]] at hd3
  refine ⟨fun h => ?_, fun h => ?_, fun h => ?_, fun h => ?_⟩
  · unfold amountsOfDecode
    rw [hd, hd3, decodeDispatch_len56 bs h]
    exact ⟨rfl, rfl⟩
  · unfold amountsOfDecode
    rw [hd, hd3, decodeDispatch_len48 bs h]
    exact ⟨rfl, rfl⟩
  · unfold amountsOfDecode
    rw [hd, hd3, decodeDispatch_len32 bs h]
    exact ⟨rfl, rfl⟩
  · unfold amountsOfDecode
    rw [hd, hd3, decodeDispatch_len24 bs h]
    exact ⟨rfl, rfl⟩

/-- C1 witness: the amended layout theorem applied to the concrete 32-byte
payload packing `(0, 1, 2, 3)`. -/
theorem c1_amended_layout_witness :
    amountsOfDecode (b64encode c1Payload) = some (u64At c1Payload 1, u64At c1Payload 3) ∧
    amountsOfDecode (b64encode (3 :: c1Payload)) = some (u64At c1Payload 1, u64At c1Payload 3) :=
  (c1_amended_layout c1Payload (by decide) (by decide)).2.2.1 (by decide)

/-- C2: `calculate_price_impact` validates its inputs and then returns the
constant `Decimal("5.0")` (simulation.py line 59): two calls differing only in
`amount_out` return the same value, contradicting the claim that the result is
the reserve-implied percentage deviation. -/
theorem c2_price_impact_constant :
    calculate_price_impact 1000000000000 20000000000 2000000000 1900000000 "SOL/USDC" =
      Except.ok 5 ∧
    calculate_price_impact 1000000000000 20000000000 2000000000 950000000 "SOL/USDC" =
      Except.ok 5 ∧
    calculate_price_impact 500 700 100 37 "SOL/USDC" =
      calculate_price_impact 500 700 100 999999 "SOL/USDC" :=
  ⟨rfl, rfl, rfl⟩

/-- C3: `simulate_sandwich` returns its fixed stub result with `success = true`
even when `min_profit_threshold = 17_000_000` exceeds the fixed
`net_profit = 16_995_000`: the returned flag ignores
`max(min_profit_threshold, gas_cost * 2)`.  The additive identity
`net_profit = profit - gas_cost - pool_fees` does hold for the fixed values. -/
theorem c3_success_ignores_threshold :
    simulate_sandwich sampleLog samplePoolDetails 17000000 false =
      some { profit := 20000000, gas_cost := 5000, pool_fees := 3000000,
             net_profit := 16995000, success := true } ∧
    (16995000 : Int) = 20000000 - 5000 - 3000000 ∧
    (16995000 : Int) < max 17000000 (5000 * 2) := by
  refine ⟨by decide, by decide, by decide⟩

/-- C4: `decode_ray_log` does not survive every input: on `"A"` (one leftover
data character) and `"abc"` (an unterminated group of three) `base64.b64decode`
raises, and the outer handler then reads the never-assigned local `decoded`,
so a `NameError` escapes to the caller.  Pad-terminated inputs such as the
repository fixture `"Invalid+Base64+Data=="` do decode (to 14 bytes no layout
accepts) and, like the empty string, correctly return no record. -/
theorem c4_decode_crash_on_bad_base64 :
    decode_ray_log "A" = Except.error "NameError: name decoded is not defined" ∧
    decode_ray_log "abc" = Except.error "NameError: name decoded is not defined" ∧
    decode_ray_log "Invalid+Base64+Data==" = Except.ok none ∧
    decode_ray_log "" = Except.ok none := by
  refine ⟨rfl, rfl, rfl, rfl⟩

/-- C5, counterexample: for `"congested"` the code returns `5000 * 2 = 10000`,
not the claimed `5000 * 1.5 * 1.2 = 9000`; there is no 1.5 multiplier and no
20% safety buffer. -/
theorem c5_counterexample :
    estimate_gas_cost (some "SOL/USDC") "congested" = 10000 ∧
    estimate_gas_cost (some "SOL/USDC") "congested" ≠ 9000 := by
  decide

/-- C5 (amended): `estimate_gas_cost` multiplies the 5000-lamport base cost by
1 (any other condition, including `"normal"`), 2 (`"congested"`) or 3
(`"high"`), with no safety buffer; `"normal"` is the Python default when the
caller omits the market condition. -/
theorem c5_amended_gas_cost :
    (∀ (pt : Option String) (mc : String),
      estimate_gas_cost pt mc =
        if mc = "congested" then 10000 else if mc = "high" then 15000 else 5000) ∧
    (∀ pt : Option String, estimate_gas_cost_defaulted pt = 5000) := by
  refine ⟨fun pt mc => rfl, fun pt => rfl⟩

/-- C6: any two decoded logs passing the validation steps (amounts present and
positive, configured pool type, `amount_in` at least the pool minimum) give
equal simulation results, namely the fixed stub
`profit 20_000_000, gas 5000, fees 3_000_000, net 16_995_000, success`,
independent of `amount_out`, the pool details and the threshold argument. -/
theorem c6_fixed_simulation_result
    (l1 l2 : DecodedLog) (pd1 pd2 : PoolDetails) (t1 t2 : Int) (d1 d2 : Bool)
    (a1 b1 a2 b2 : Int) (cfg1 cfg2 : PoolConfig)
    (ha1 : l1.amount_in = some a1) (hb1 : l1.amount_out = some b1)
    (hap1 : 0 < a1) (hbp1 : 0 < b1)
    (hc1 : POOL_CONFIGS (l1.pool_type.getD "SOL/USDC") = some cfg1)
    (hm1 : cfg1.min_amount_threshold ≤ a1)
    (ha2 : l2.amount_in = some a2) (hb2 : l2.amount_out = some b2)
    (hap2 : 0 < a2) (hbp2 : 0 < b2)
    (hc2 : POOL_CONFIGS (l2.pool_type.getD "SOL/USDC") = some cfg2)
    (hm2 : cfg2.min_amount_threshold ≤ a2) :
    simulate_sandwich l1 pd1 t1 d1 = simulate_sandwich l2 pd2 t2 d2 ∧
    simulate_sandwich l1 pd1 t1 d1 =
      some { profit := 20000000, gas_cost := 5000, pool_fees := 3000000,
             net_profit := 16995000, success := true } := by
  have e1 := simulate_sandwich_valid l1 pd1 t1 d1 a1 b1 cfg1 ha1 hb1 hap1 hbp1 hc1 hm1
  have e2 := simulate_sandwich_valid l2 pd2 t2 d2 a2 b2 cfg2 ha2 hb2 hap2 hbp2 hc2 hm2
  rw [e1, e2]
  exact ⟨rfl, rfl⟩

/-- C6 witness: two concrete valid logs (different amounts, pools, thresholds
and dry-run flags) produce the same fixed result. -/
theorem c6_fixed_simulation_result_witness :
    simulate_sandwich sampleLog samplePoolDetails 10000000 false =
      simulate_sandwich sampleLog2 samplePoolDetails 0 true ∧
    simulate_sandwich sampleLog samplePoolDetails 10000000 false =
      some { profit := 20000000, gas_cost := 5000, pool_fees := 3000000,
             net_profit := 16995000, success := true } :=
  c6_fixed_simulation_result sampleLog sampleLog2 samplePoolDetails samplePoolDetails
    10000000 0 false true 2000000000 1900000000 5000000000 95000000
    solUsdcConfig solUsdtConfig
    rfl rfl (by decide) (by decide) rfl (by decide)
    rfl rfl (by decide) (by decide) rfl (by decide)

/-- C7, counterexample: for the 32-byte payload that itself begins with the
0x03 byte, the tagged form decodes to a record with amounts `(0, 0)` while the
untagged form decodes to no record at all (the tag byte is stripped from it,
leaving 31 bytes no layout accepts). -/
theorem c7_counterexample :
    amountsOfDecode (b64encode ((3 : Nat) :: c7Payload)) = some (0, 0) ∧
    amountsOfDecode (b64encode c7Payload) = none ∧
    amountsOfDecode (b64encode ((3 : Nat) :: c7Payload)) ≠
      amountsOfDecode (b64encode c7Payload) := by
  decide

/-- C7 (amended): for every 32-byte payload that does not itself begin with
the 0x03 version byte, decoding the base64 encoding of `0x03` followed by the
payload gives exactly the same result as decoding the payload alone. -/
theorem c7_amended_version_tag (p : List Nat) (Hb : ∀ b ∈ p, b < 256)
    (hlen : p.length = 32) (hhd : p.head? ≠ some 3) :
    decode_ray_log (b64encode ((3 : Nat) :: p)) = decode_ray_log (b64encode p) := by
  have Hb3 : ∀ b ∈ ((3 : Nat) :: p), b < 256 := by
    intro b hb
    rcases List.mem_cons.mp hb with rfl | hmem
    · omega
    · exact Hb b hmem
  rw [decode_ray_log_b64encode p Hb, decode_ray_log_b64encode _ Hb3]
  rw [stripVersionTag_eq_self p hhd]
  rw [show stripVersionTag (3 :: p) = p from by simp [stripVersionTag]]

/-- C7 witness: the amended theorem applied to the all-zero 32-byte payload. -/
theorem c7_amended_version_tag_witness :
    decode_ray_log (b64encode ((3 : Nat) :: c7GoodPayload)) =
      decode_ray_log (b64encode c7GoodPayload) :=
  c7_amended_version_tag c7GoodPayload (by decide) (by decide) (by decide)

/-- C8: with a configured pool type, a log whose `amount_in` is strictly below
the pool minimum is always rejected (`None`), whatever the other fields, pool
details, threshold and dry-run flag. -/
theorem c8_reject_below_min_amount (l : DecodedLog) (pd : PoolDetails)
    (t : Int) (d : Bool) (a : Int) (cfg : PoolConfig)
    (hc : POOL_CONFIGS (l.pool_type.getD "SOL/USDC") = some cfg)
    (ha : l.amount_in = some a) (hlt : a < cfg.min_amount_threshold) :
    simulate_sandwich l pd t d = none :=
  simulate_sandwich_below_min l pd t d a cfg hc ha hlt

/-- C8 witness: 0.5 SOL is below the 1 SOL SOL/USDC minimum and is rejected. -/
theorem c8_reject_below_min_amount_witness :
    simulate_sandwich
      { amount_in := some 500000000, amount_out := some 1000000,
        pool_type := some "SOL/USDC" }
      samplePoolDetails 10000000 false = none :=
  c8_reject_below_min_amount
    { amount_in := some 500000000, amount_out := some 1000000,
      pool_type := some "SOL/USDC" }
    samplePoolDetails 10000000 false 500000000 solUsdcConfig rfl rfl (by decide)

/-- C9: a cache entry written 300 or more seconds before `now` is not used as
a reserve source (the lookup yields no reserves) while the entry itself stays
in the cache unchanged. -/
theorem c9_stale_cache_not_used (cache : String → Option ReserveEntry)
    (pool_type : String) (now : Nat) (entry : ReserveEntry)
    (hc : cache pool_type = some entry)
    (hstale : entry.last_update + 300 ≤ now) :
    (reservesFromCache cache pool_type now).1 = none ∧
    (reservesFromCache cache pool_type now).2 pool_type = some entry := by
  unfold reservesFromCache
  rw [hc]
  refine ⟨?_, hc⟩
  dsimp only
  rw [if_neg (by omega)]

/-- C9 witness: an entry written at time 100 queried at time 400. -/
theorem c9_stale_cache_not_used_witness :
    (reservesFromCache sampleCache "SOL/USDC" 400).1 = none ∧
    (reservesFromCache sampleCache "SOL/USDC" 400).2 "SOL/USDC" =
      some { token_a := 1000000000000, token_b := 20000000000, last_update := 100 } :=
  c9_stale_cache_not_used sampleCache "SOL/USDC" 400
    { token_a := 1000000000000, token_b := 20000000000, last_update := 100 }
    rfl (by decide)

/-- C10: `identify_pool` answers SOL/USDC for every pool id, and every record
`decode_ray_log` returns, over all decode paths, carries
`pool_type = "SOL/USDC"`. -/
theorem c10_pool_type_always_sol_usdc :
    (∀ pid : Nat, identify_pool pid = some "SOL/USDC") ∧
    ∀ (s : String) (r : RayRecord),
      decode_ray_log s = Except.ok (some r) → r.pool_type = some "SOL/USDC" := by
  refine ⟨fun pid => rfl, fun s r h => ?_⟩
  unfold decode_ray_log at h
  exact decodeAfterB64_pool_type _ r h

/-- C10 witness: the pool-type theorem applied to the decoded all-zero
24-byte payload. -/
theorem c10_pool_type_always_sol_usdc_witness :
    c10Record.pool_type = some "SOL/USDC" :=
  c10_pool_type_always_sol_usdc.2 (b64encode c10Payload) c10Record (by rfl)
